import Mathlib

/-!
Verification of the conversational retrieval-answering engine of
CareerMatch-AI (`src/services/askQuestion.service.ts`).

The TypeScript service is shallowly embedded: every external collaborator
(conversation store, completion provider, semantic cache, vector index,
job-search provider) is modelled as an oracle field of an `Env` record
holding the value that collaborator returns on this request, and
`askQuestion` is a pure function from `Env` to the returned answer bundle
together with the ordered list of observable effects (messages persisted,
provider invocations, retrieval calls, cache operations).  Scores are
embedded as rationals; the classifier's confidence is embedded as a
JavaScript number (`JSNumber`): the unvalidated cast after `JSON.parse`
admits a missing or non-numeric field, whose NaN comparison semantics the
model carries.  JavaScript falsiness of the empty string is embedded
explicitly where the source relies on it.  The embedding
covers the executions in which external calls return normally (the values
carried by the oracle); the service's outer try/catch is discussed where a
claim refers to it.
-/

set_option linter.unusedVariables false

namespace CareerMatch

/-- Constants, from the head of `askQuestion.service.ts`. -/
def TOP_K : Nat := 10

/-- `MIN_SCORE = 0.1` in the source (`mkRat` keeps the constant
kernel-computable). -/
def MIN_SCORE : ℚ := mkRat 1 10

def MAX_HISTORY_MESSAGES : Nat := 4

def MAX_TOKENS_HISTORY : Nat := 1000

/-- A scored retrieved chunk (`interface CitedChunk`). The `source` field is
kept as a string, as the wire representation does. -/
structure CitedChunk where
  id : String
  score : ℚ
  content : String
  documentId : String
  chunkIndex : Nat
  source : String
deriving DecidableEq, Repr

/-- The answer bundle (`interface QuestionResponse`). `source` is one of
"rag" | "web" | "job" | "combined" | "error" for freshly built bundles; a
cache hit casts the cached string through, so it is a plain string here. -/
structure QuestionResponse where
  conversationId : String
  answer : String
  citedChunks : List CitedChunk
  source : String
deriving DecidableEq, Repr

/-- Classified intent (the four legal values of `QueryAnalysis.intent`). -/
inductive Intent where
  | resume_query
  | career_guidance
  | job_search
  | irrelevant
deriving DecidableEq, Repr

/-- Optional job parameters (`QueryAnalysis.jobSearch`). -/
structure JobSearchParams where
  jobTitle : Option String := none
  location : Option String := none
  skills : Option (List String) := none
deriving DecidableEq, Repr

/-- A JavaScript number position as the unvalidated `JSON.parse` cast can
leave it: `num q` is a JSON number; `nan` is everything whose numeric
coercion is NaN — a missing field (`undefined`) or a non-numeric string —
for which every `<`/`>` comparison is false.  (A JSON `null` coerces to 0
in comparisons and so behaves exactly like `num 0` for every comparison
this program makes.) -/
inductive JSNumber where
  | num (q : ℚ)
  | nan
deriving DecidableEq, Repr

/-- JavaScript `x < b`: false whenever `x` coerces to NaN. -/
def JSNumber.lt : JSNumber → ℚ → Bool
  | .num q, b => q < b
  | .nan, _ => false

/-- JavaScript `x > b`: false whenever `x` coerces to NaN. -/
def JSNumber.gt : JSNumber → ℚ → Bool
  | .num q, b => b < q
  | .nan, _ => false

/-- The classifier's parsed JSON reply, before the defensive normalisation in
`analyzeQuery`: the intent is still a raw string, and — the cast after
`JSON.parse` performing no runtime validation — the confidence may be
missing or non-numeric (`JSNumber.nan`). -/
structure RawAnalysis where
  intent : String
  confidence : JSNumber
  rewrittenQuery : String
  jobSearch : Option JobSearchParams := none
deriving DecidableEq, Repr

/-- The normalised query analysis (`interface QueryAnalysis`).  The
confidence keeps the JavaScript-number type: the normalisation in
`analyzeQuery` clamps only values the range check can see. -/
structure QueryAnalysis where
  intent : Intent
  confidence : JSNumber
  rewrittenQuery : String
  jobSearch : Option JobSearchParams := none
deriving DecidableEq, Repr

/-- The membership test
`["resume_query","career_guidance","job_search","irrelevant"].includes(intent)`
together with the typed reading of the accepted string. -/
def parseIntent : String → Option Intent
  | "resume_query" => some .resume_query
  | "career_guidance" => some .career_guidance
  | "job_search" => some .job_search
  | "irrelevant" => some .irrelevant
  | _ => none

/-- `question.trim() === ""` as JavaScript computes it: a string trims to
the empty string exactly when every character is whitespace. Written over
the character list so that it is kernel-computable. -/
def isBlank (s : String) : Bool :=
  s.data.all Char.isWhitespace

/-- Whether `needle` is a prefix of `hay` (character lists). -/
def startsWithChars : List Char → List Char → Bool
  | _, [] => true
  | [], _ :: _ => false
  | c :: cs, d :: ds => c = d && startsWithChars cs ds

/-- Whether `needle` occurs somewhere in `hay` (character lists). -/
def includesChars (needle : List Char) : List Char → Bool
  | [] => needle.isEmpty
  | c :: rest => startsWithChars (c :: rest) needle || includesChars needle rest

/-- `s.includes(sub)` on JavaScript strings. -/
def includesStr (s sub : String) : Bool :=
  includesChars sub.data s.data

/-- `analyzeQuery` of the source, as a function of the completion provider's
reply: `none` stands for any network or JSON-parse failure (the `catch`
branch), `some raw` for a reply that parsed into the `QueryAnalysis` shape.
The body mirrors the sequential normalisation of the source:
invalid intent forces `irrelevant`/0; a confidence the range check
`confidence < 0 || confidence > 1` catches becomes 0.8 (0 if irrelevant) —
JavaScript comparison semantics, under which a NaN confidence passes the
check unclamped; an empty rewritten query falls back to the question;
`jobSearch` is cleared unless the intent is `job_search`, and a missing
skills list is replaced by the empty list. -/
def analyzeQuery (question : String) (reply : Option RawAnalysis) : QueryAnalysis :=
  match reply with
  | none =>
    { intent := .irrelevant, confidence := JSNumber.num 0, rewrittenQuery := question }
  | some raw =>
    let (intent, conf₀) :=
      match parseIntent raw.intent with
      | some i => (i, raw.confidence)
      | none => (Intent.irrelevant, JSNumber.num 0)
    let conf :=
      if conf₀.lt 0 || conf₀.gt 1 then
        (if intent = .irrelevant then JSNumber.num 0 else JSNumber.num (mkRat 8 10))
      else conf₀
    let rq :=
      if isBlank raw.rewrittenQuery then question else raw.rewrittenQuery
    let js :=
      if intent = .job_search then
        match raw.jobSearch with
        | none => some { skills := some [] }
        | some j =>
          match j.skills with
          | none => some { j with skills := some ([] : List String) }
          | some _ => some j
      else none
    { intent := intent, confidence := conf, rewrittenQuery := rq, jobSearch := js }

/-- `isContextRelevant` of the source: at least two chunks with
`score >= MIN_SCORE`. -/
def isContextRelevant (chunks : List CitedChunk) : Bool :=
  if chunks.length = 0 then false
  else
    let relevantChunks := chunks.filter (fun c => MIN_SCORE ≤ c.score)
    2 ≤ relevantChunks.length

/-- A conversation-history message as handed to the prompt templates; only
the role tag and the text content are observable to the engine. -/
structure BaseMessage where
  role : String
  content : String
deriving DecidableEq, Repr

/-- A stored conversation-store row, as `prisma.message.findMany` returns it. -/
structure DbMessage where
  role : String
  text : String
deriving DecidableEq, Repr

/-- `getConversationHistory`: the store returns the most recent `limit`
messages in descending recency (`rows` is already so ordered); they are
reversed to chronological order and mapped to human/ai messages. -/
def getConversationHistory (rows : List DbMessage) (limit : Nat := MAX_HISTORY_MESSAGES) :
    List BaseMessage :=
  let messages := rows.take limit
  (messages.reverse).map (fun m =>
    if m.role = "user" then ⟨"human", m.text⟩
    else if m.role = "assistant" then ⟨"ai", m.text⟩
    else ⟨"human", m.text⟩)

/-- `estimateTokenCount`: `Math.ceil(text.length / 4)`. -/
def estimateTokenCount (text : String) : Nat :=
  (text.length + 3) / 4

/-- The loop body of `filterHistoryByTokens`: `rest` is the remaining
messages, newest first (the source walks the array from its last index
down); `result` is the accumulator built with `unshift`. -/
def filterHistoryGo (maxTokens : Nat) :
    Nat → List BaseMessage → List BaseMessage → List BaseMessage
  | _, [], result => result
  | totalTokens, m :: rest, result =>
    let msgTokens := estimateTokenCount m.content
    if maxTokens < totalTokens + msgTokens then result
    else filterHistoryGo maxTokens (totalTokens + msgTokens) rest (m :: result)

/-- `filterHistoryByTokens` of the source: walk from the newest message to
the oldest, accumulate estimated token counts, stop at the first message
that would exceed the budget, return in chronological order. -/
def filterHistoryByTokens (messages : List BaseMessage)
    (maxTokens : Nat := MAX_TOKENS_HISTORY) : List BaseMessage :=
  filterHistoryGo maxTokens 0 messages.reverse []

/-- `extractAnswer`'s input: the completion provider's `response.content`,
either a plain string or a list of typed blocks whose `text` field may be
missing. -/
inductive LLMContent where
  | str (s : String)
  | blocks (bs : List (Option String))
deriving DecidableEq, Repr

/-- `extractAnswer` of the source: a plain string is returned as is; a block
list is mapped over `block.text || ""` and joined. -/
def extractAnswer : LLMContent → String
  | .str s => s
  | .blocks bs => String.join (bs.map (fun b => b.getD ""))

/-- The guardrail refusal text of the source. -/
def GUARDRAIL_MESSAGE : String :=
  "I can only help with questions related to your resume, career guidance, or job search. Please ask a relevant question."

/-- The cascade-exhaustion text of the source (`errorAnswer`). -/
def NO_INFO_ANSWER : String :=
  "I don't have enough information to answer this question. Please try a different question or provide more context."

/-- The empty-question validation text of the source. -/
def EMPTY_QUESTION_ANSWER : String := "Please provide a valid question."

/-- The refusal needle of the rag-only acceptance check. -/
def REFUSAL_NEEDLE : String := "don't have enough"

/-- The payload the semantic cache returns on a hit, as the source reads it:
`cachedResponse.conversationId / .answer / .source / .citedChunks` (the cache
module stores a serialized `QuestionResponse`). -/
structure CachedAnswer where
  conversationId : String
  answer : String
  citedChunks : List CitedChunk
  source : String
deriving DecidableEq, Repr

/-- Which completion-provider round trip an `llmCall` effect records. -/
inductive LLMKind where
  | classify
  | job
  | combined
  | ragOnly
  | webOnly
deriving DecidableEq, Repr

/-- An observable effect of one `askQuestion` run, in program order:
a message persisted to the conversation store, a completion-provider
invocation, a vector-index retrieval, a job-search call, a semantic-cache
lookup or store, or a conversation-title update. -/
inductive Effect where
  | savedMessage (conversationId role text source : String) (citedChunks : List CitedChunk)
  | llmCall (kind : LLMKind)
  | ragQuery (query : String) (topK : Nat)
  | jobSearchCall (query : String)
  | cacheLookupEff (query : String)
  | cacheStore (query : String) (resp : QuestionResponse)
  | titleUpdate (conversationId question source : String)
deriving DecidableEq, Repr

/-- The oracle for one request: the caller's arguments plus the value each
external collaborator returns when invoked on this request. -/
structure Env where
  question : String
  userId : String
  conversationId : Option String := none
  resumeId : Option String := none
  /-- whether `prisma.conversation.findUnique` finds the supplied id -/
  convFound : Bool := false
  /-- the id `prisma.conversation.create` would assign -/
  newConversationId : String := "conv_new"
  /-- the classifier round trip: `none` = network/parse failure -/
  classifierReply : Option RawAnalysis := none
  /-- `cache.getCachedResponse` result -/
  cacheLookup : Option CachedAnswer := none
  /-- `prisma.message.findMany` result, descending recency -/
  dbMessages : List DbMessage := []
  /-- `searchWithJSearch` result -/
  jobChunks : List CitedChunk := []
  /-- `queryRAG` result for the skills query of the job step -/
  jobRagResults : List CitedChunk := []
  /-- `jobSearchChain.invoke` reply -/
  jobSynthReply : LLMContent := .str ""
  /-- `queryRAG` result for the main retrieval -/
  ragResults : List CitedChunk := []
  /-- `combinedChain.invoke` reply -/
  combinedSynthReply : LLMContent := .str ""
  /-- `ragOnlyChain.invoke` reply for the resume-only step -/
  ragSynthReply : LLMContent := .str ""
  /-- `ragOnlyChain.invoke` reply for the web-only step -/
  webSynthReply : LLMContent := .str ""
deriving Repr

/-- `getOrCreateConversation`: keep a supplied, non-empty id that the store
finds; otherwise create a fresh conversation. -/
def getOrCreateConversation (env : Env) : String :=
  match env.conversationId with
  | some cid => if cid ≠ "" ∧ env.convFound then cid else env.newConversationId
  | none => env.newConversationId

/-- `askQuestion` of the source, over the oracle `env`: returns the answer
bundle and the ordered effect trace.  The `llmCall .classify` effect records
the completion-provider round trip made inside `analyzeQuery` (attempted
even when the reply fails to parse); `webChunks` is the literal empty list,
`searchWithSerper` being disabled in the source. -/
def askQuestion (env : Env) : QuestionResponse × List Effect :=
  let question := env.question
  if isBlank question then
    ({ conversationId := "", answer := EMPTY_QUESTION_ANSWER,
       citedChunks := [], source := "error" }, [])
  else
    let finalConversationId := getOrCreateConversation env
    let analysis := analyzeQuery question env.classifierReply
    let effs₀ : List Effect :=
      [.savedMessage finalConversationId "user" question "user" [],
       .llmCall .classify]
    if analysis.intent = .irrelevant ∨ analysis.confidence.lt (mkRat 6 10) then
      ({ conversationId := finalConversationId, answer := GUARDRAIL_MESSAGE,
         citedChunks := [], source := "error" },
       effs₀ ++
         [.savedMessage finalConversationId "assistant" GUARDRAIL_MESSAGE "error" [],
          .titleUpdate finalConversationId question "error"])
    else
      let effs₁ := effs₀ ++ [.cacheLookupEff question]
      match env.cacheLookup with
      | some cachedResponse =>
        let responseConversationId :=
          if cachedResponse.conversationId = "" then finalConversationId
          else cachedResponse.conversationId
        ({ conversationId := responseConversationId,
           answer := cachedResponse.answer,
           citedChunks := cachedResponse.citedChunks,
           source := cachedResponse.source },
         effs₁ ++
           [.savedMessage finalConversationId "assistant" cachedResponse.answer
              cachedResponse.source cachedResponse.citedChunks])
      | none =>
        let history := filterHistoryByTokens (getConversationHistory env.dbMessages)
        let queryToUse :=
          if analysis.rewrittenQuery = "" then question else analysis.rewrittenQuery
        let jobStep : List Effect × Option QuestionResponse :=
          if analysis.intent = .job_search then
            let jobChunks := env.jobChunks
            let es : List Effect := [.jobSearchCall queryToUse]
            if 0 < jobChunks.length then
              let skillsToQuery :=
                match analysis.jobSearch with
                | some js =>
                  match js.skills with
                  | some skills =>
                    if 0 < skills.length then String.intercalate " " skills
                    else queryToUse
                  | none => queryToUse
                | none => queryToUse
              let resumeContext := String.intercalate "\n"
                ((env.jobRagResults.filter (fun r => MIN_SCORE ≤ r.score)).map
                  (fun c => c.content))
              let es := es ++ [.ragQuery skillsToQuery 5, .llmCall .job]
              let answer := extractAnswer env.jobSynthReply
              if answer ≠ "" ∧ 10 < answer.length then
                let resp : QuestionResponse :=
                  { conversationId := finalConversationId, answer := answer,
                    citedChunks := jobChunks, source := "job" }
                (es ++
                   [.savedMessage finalConversationId "assistant" answer "job" jobChunks,
                    .titleUpdate finalConversationId question "job",
                    .cacheStore question resp], some resp)
              else (es, none)
            else (es, none)
          else ([], none)
        match jobStep with
        | (esJ, some resp) => (resp, effs₁ ++ esJ)
        | (esJ, none) =>
          let effs₂ := effs₁ ++ esJ ++ [.ragQuery queryToUse (TOP_K * 2)]
          let ragResults := env.ragResults
          let webChunks : List CitedChunk := []
          let ragRelevant := isContextRelevant ragResults
          let webRelevant := 0 < webChunks.length
          let combinedStep : List Effect × Option QuestionResponse :=
            if ragRelevant ∧ webRelevant then
              let goodRagChunks :=
                (ragResults.filter (fun r => MIN_SCORE ≤ r.score)).take TOP_K
              let es : List Effect := [.llmCall .combined]
              let answer := extractAnswer env.combinedSynthReply
              if answer ≠ "" ∧ 10 < answer.length then
                let citedChunks :=
                  goodRagChunks.map (fun c => { c with source := "rag" }) ++
                    (webChunks.take 3).map (fun c => { c with source := "web" })
                let resp : QuestionResponse :=
                  { conversationId := finalConversationId, answer := answer,
                    citedChunks := citedChunks, source := "combined" }
                (es ++
                   [.savedMessage finalConversationId "assistant" answer "combined" citedChunks,
                    .titleUpdate finalConversationId question "combined",
                    .cacheStore question resp], some resp)
              else (es, none)
            else ([], none)
          match combinedStep with
          | (esC, some resp) => (resp, effs₂ ++ esC)
          | (esC, none) =>
            let ragStep : List Effect × Option QuestionResponse :=
              if ragRelevant ∧ ¬webRelevant then
                let goodRagChunks :=
                  (ragResults.filter (fun r => MIN_SCORE ≤ r.score)).take TOP_K
                let es : List Effect := [.llmCall .ragOnly]
                let answer := extractAnswer env.ragSynthReply
                if answer ≠ "" ∧ 10 < answer.length ∧
                    includesStr answer REFUSAL_NEEDLE = false then
                  let citedChunks := goodRagChunks.map (fun c => { c with source := "rag" })
                  let resp : QuestionResponse :=
                    { conversationId := finalConversationId, answer := answer,
                      citedChunks := citedChunks, source := "rag" }
                  (es ++
                     [.savedMessage finalConversationId "assistant" answer "resume" citedChunks,
                      .titleUpdate finalConversationId question "rag",
                      .cacheStore question resp], some resp)
                else (es, none)
              else ([], none)
            match ragStep with
            | (esR, some resp) => (resp, effs₂ ++ esC ++ esR)
            | (esR, none) =>
              let webStep : List Effect × Option QuestionResponse :=
                if ¬ragRelevant ∧ webRelevant then
                  let es : List Effect := [.llmCall .webOnly]
                  let answer := extractAnswer env.webSynthReply
                  if answer ≠ "" ∧ 10 < answer.length then
                    let resp : QuestionResponse :=
                      { conversationId := finalConversationId, answer := answer,
                        citedChunks := webChunks, source := "web" }
                    (es ++
                       [.savedMessage finalConversationId "assistant" answer "web" webChunks,
                        .titleUpdate finalConversationId question "web",
                        .cacheStore question resp], some resp)
                  else (es, none)
                else ([], none)
              match webStep with
              | (esW, some resp) => (resp, effs₂ ++ esC ++ esR ++ esW)
              | (esW, none) =>
                ({ conversationId := finalConversationId, answer := NO_INFO_ANSWER,
                   citedChunks := [], source := "error" },
                 effs₂ ++ esC ++ esR ++ esW ++
                   [.savedMessage finalConversationId "assistant" NO_INFO_ANSWER "error" [],
                    .titleUpdate finalConversationId question "error"])

/-! ### Observation predicates over the effect trace -/

/-- Whether an effect persists an assistant turn to the conversation store. -/
def isAssistantSave : Effect → Bool
  | .savedMessage _ role _ _ _ => role = "assistant"
  | _ => false

/-- How many assistant turns a trace persists. -/
def assistantSaves (t : List Effect) : Nat :=
  (t.filter isAssistantSave).length

/-- Whether an effect is a retrieval call (vector-index query or job-search
provider call). -/
def isRetrieval : Effect → Bool
  | .ragQuery _ _ => true
  | .jobSearchCall _ => true
  | _ => false

/-- Whether an effect is a synthesis invocation of the completion provider
(any completion round trip other than the classifier's). -/
def isSynthesisCall : Effect → Bool
  | .llmCall k => !(k = .classify : Bool)
  | _ => false

/-- Whether an effect writes to the semantic cache. -/
def isCacheStore : Effect → Bool
  | .cacheStore _ _ => true
  | _ => false

/-- Total estimated token cost of a message list. -/
def totalTokensOf (l : List BaseMessage) : Nat :=
  (l.map (fun m => estimateTokenCount m.content)).sum

/-- The newest-first prefix the budget walk keeps: an accumulator-style
reformulation of `filterHistoryGo` without the `unshift` accumulator,
used only in proofs. -/
def takeBudget (maxTokens : Nat) : Nat → List BaseMessage → List BaseMessage
  | _, [] => []
  | totalTokens, m :: rest =>
    if maxTokens < totalTokens + estimateTokenCount m.content then []
    else m :: takeBudget maxTokens (totalTokens + estimateTokenCount m.content) rest

/-! ### Concrete fixtures used by counterexamples and witnesses -/

/-- A confident resume-intent classifier reply. -/
def rawResume : RawAnalysis :=
  { intent := "resume_query", confidence := JSNumber.num (mkRat 9 10), rewrittenQuery := "skills summary" }

/-- A cached payload tagged "rag" carrying its original conversation id. -/
def cachedRag : CachedAnswer :=
  { conversationId := "convA", answer := "cached resume answer", citedChunks := [],
    source := "rag" }

/-- A cached payload tagged "web". -/
def cachedWeb : CachedAnswer :=
  { conversationId := "convB", answer := "cached web answer", citedChunks := [],
    source := "web" }

/-- A request that passes the guardrail and hits the cache on a "rag" entry. -/
def envHitRag : Env :=
  { question := "what are my skills", userId := "u1",
    classifierReply := some rawResume, cacheLookup := some cachedRag }

/-- A request that passes the guardrail and hits the cache on a "web" entry. -/
def envHitWeb : Env :=
  { question := "what are my skills", userId := "u1",
    classifierReply := some rawResume, cacheLookup := some cachedWeb }

/-- A gibberish request classified with confidence 0.1. -/
def envGuardrail : Env :=
  { question := "asdf qwer zxcv", userId := "u1",
    classifierReply := some
      { intent := "resume_query", confidence := JSNumber.num (mkRat 1 10), rewrittenQuery := "" } }

/-- One formatted job posting chunk. -/
def jobChunk1 : CitedChunk :=
  { id := "j1", score := 1, content := "Job Title: X", documentId := "job_j1",
    chunkIndex := 0, source := "job" }

/-- A job-search request whose synthesized answer echoes the refusal phrase
"don't have enough" yet is longer than 10 characters. -/
def envJobRefusal : Env :=
  { question := "find me a backend job", userId := "u1",
    classifierReply := some
      { intent := "job_search", confidence := JSNumber.num (mkRat 9 10), rewrittenQuery := "backend job" },
    jobChunks := [jobChunk1],
    jobSynthReply := .str "I don't have enough information to answer." }

/-- A request with an empty question. -/
def envEmpty : Env := { question := "", userId := "u1" }

/-- A parsed classifier reply whose JSON carries a valid intent but no
numeric confidence: the unvalidated cast leaves the field undefined — NaN
in every comparison. -/
def rawMissingConf : RawAnalysis :=
  { intent := "resume_query", confidence := JSNumber.nan,
    rewrittenQuery := "resume skills" }

/-! ### Path lemmas: one lemma per terminal state of `askQuestion` -/

/-- Input validation: a blank question returns an error bundle with no
effects at all. -/
theorem validation_path (env : Env) (hq : isBlank env.question = true) :
    askQuestion env =
      ({ conversationId := "", answer := EMPTY_QUESTION_ANSWER,
         citedChunks := [], source := "error" }, []) := by
  simp [askQuestion, hq]

/-- Guardrail refusal: irrelevant intent or confidence below 0.6 yields the
fixed refusal as an assistant turn tagged "error", an error bundle, and
exactly the four effects of that path. -/
theorem guardrail_path (env : Env)
    (hq : isBlank env.question = false)
    (hg : (analyzeQuery env.question env.classifierReply).intent = .irrelevant ∨
          (analyzeQuery env.question env.classifierReply).confidence.lt (mkRat 6 10) = true) :
    askQuestion env =
      ({ conversationId := getOrCreateConversation env, answer := GUARDRAIL_MESSAGE,
         citedChunks := [], source := "error" },
       [.savedMessage (getOrCreateConversation env) "user" env.question "user" [],
        .llmCall .classify,
        .savedMessage (getOrCreateConversation env) "assistant" GUARDRAIL_MESSAGE "error" [],
        .titleUpdate (getOrCreateConversation env) env.question "error"]) := by
  simp [askQuestion, hq, hg]

/-- Cache hit: past the guardrail, a cached answer is replayed verbatim
(conversation id taken from the cached payload when non-empty), one fresh
assistant turn is appended to the current conversation, and no retrieval or
synthesis effect occurs. -/
theorem cachehit_path (env : Env) (c : CachedAnswer)
    (hq : isBlank env.question = false)
    (hg1 : ¬ (analyzeQuery env.question env.classifierReply).intent = .irrelevant)
    (hg2 : (analyzeQuery env.question env.classifierReply).confidence.lt (mkRat 6 10) = false)
    (hc : env.cacheLookup = some c) :
    askQuestion env =
      ({ conversationId :=
           if c.conversationId = "" then getOrCreateConversation env
           else c.conversationId,
         answer := c.answer, citedChunks := c.citedChunks, source := c.source },
       [.savedMessage (getOrCreateConversation env) "user" env.question "user" [],
        .llmCall .classify,
        .cacheLookupEff env.question,
        .savedMessage (getOrCreateConversation env) "assistant" c.answer c.source
          c.citedChunks]) := by
  simp [askQuestion, hq, hg1, hg2, hc]

/-- Accepted job synthesis: job intent, non-empty job results and an answer
longer than 10 characters terminate with source "job" and one assistant
turn; the combined and web-only synthesis calls never appear. -/
theorem job_accept_spec (env : Env)
    (hq : isBlank env.question = false)
    (hg1 : ¬ (analyzeQuery env.question env.classifierReply).intent = .irrelevant)
    (hg2 : (analyzeQuery env.question env.classifierReply).confidence.lt (mkRat 6 10) = false)
    (hc : env.cacheLookup = none)
    (hi : (analyzeQuery env.question env.classifierReply).intent = .job_search)
    (hj : 0 < env.jobChunks.length)
    (ha : extractAnswer env.jobSynthReply ≠ "" ∧ 10 < (extractAnswer env.jobSynthReply).length) :
    (askQuestion env).1 =
      { conversationId := getOrCreateConversation env,
        answer := extractAnswer env.jobSynthReply,
        citedChunks := env.jobChunks, source := "job" } ∧
    assistantSaves (askQuestion env).2 = 1 ∧
    Effect.llmCall .combined ∉ (askQuestion env).2 ∧
    Effect.llmCall .webOnly ∉ (askQuestion env).2 := by
  refine ⟨?_, ?_, ?_, ?_⟩ <;>
    simp [askQuestion, assistantSaves, isAssistantSave, hq, hg1, hg2, hc, hi, hj, ha]

/-- Accepted resume-only synthesis: once the job step has not produced an
answer, relevant resume context and an accepted answer terminate with
source "rag" (the persisted turn is tagged "resume") and one assistant
turn; combined and web-only synthesis calls never appear. -/
theorem rag_accept_spec (env : Env)
    (hq : isBlank env.question = false)
    (hg1 : ¬ (analyzeQuery env.question env.classifierReply).intent = .irrelevant)
    (hg2 : (analyzeQuery env.question env.classifierReply).confidence.lt (mkRat 6 10) = false)
    (hc : env.cacheLookup = none)
    (hjf : ¬ (analyzeQuery env.question env.classifierReply).intent = .job_search ∨
           env.jobChunks.length = 0 ∨
           ¬ (extractAnswer env.jobSynthReply ≠ "" ∧ 10 < (extractAnswer env.jobSynthReply).length))
    (hr : isContextRelevant env.ragResults = true)
    (ha : extractAnswer env.ragSynthReply ≠ "" ∧ 10 < (extractAnswer env.ragSynthReply).length ∧
          includesStr (extractAnswer env.ragSynthReply) REFUSAL_NEEDLE = false) :
    (askQuestion env).1 =
      { conversationId := getOrCreateConversation env,
        answer := extractAnswer env.ragSynthReply,
        citedChunks := ((env.ragResults.filter (fun r => MIN_SCORE ≤ r.score)).take TOP_K).map
          (fun c => { c with source := "rag" }),
        source := "rag" } ∧
    assistantSaves (askQuestion env).2 = 1 ∧
    Effect.llmCall .combined ∉ (askQuestion env).2 ∧
    Effect.llmCall .webOnly ∉ (askQuestion env).2 := by
  rcases hjf with hji | hjc | hja
  · refine ⟨?_, ?_, ?_, ?_⟩ <;>
      simp [askQuestion, assistantSaves, isAssistantSave, hq, hg1, hg2, hc, hji, hr, ha]
  · by_cases hi : (analyzeQuery env.question env.classifierReply).intent = .job_search <;>
      refine ⟨?_, ?_, ?_, ?_⟩ <;>
      simp [askQuestion, assistantSaves, isAssistantSave, hq, hg1, hg2, hc, hi, hjc, hr, ha]
  · by_cases hi : (analyzeQuery env.question env.classifierReply).intent = .job_search <;>
      by_cases hjc : 0 < env.jobChunks.length <;>
      refine ⟨?_, ?_, ?_, ?_⟩ <;>
      simp [askQuestion, assistantSaves, isAssistantSave, hq, hg1, hg2, hc, hi, hjc, hja, hr, ha]

/-- Cascade exhaustion: with the job step failed and the resume-only step
either gated out or rejected (web context being constantly empty), the run
terminates with the fixed insufficient-information error bundle and one
assistant turn; combined and web-only synthesis calls never appear. -/
theorem exhaustion_spec (env : Env)
    (hq : isBlank env.question = false)
    (hg1 : ¬ (analyzeQuery env.question env.classifierReply).intent = .irrelevant)
    (hg2 : (analyzeQuery env.question env.classifierReply).confidence.lt (mkRat 6 10) = false)
    (hc : env.cacheLookup = none)
    (hjf : ¬ (analyzeQuery env.question env.classifierReply).intent = .job_search ∨
           env.jobChunks.length = 0 ∨
           ¬ (extractAnswer env.jobSynthReply ≠ "" ∧ 10 < (extractAnswer env.jobSynthReply).length))
    (hrf : isContextRelevant env.ragResults = false ∨
           ¬ (extractAnswer env.ragSynthReply ≠ "" ∧ 10 < (extractAnswer env.ragSynthReply).length ∧
              includesStr (extractAnswer env.ragSynthReply) REFUSAL_NEEDLE = false)) :
    (askQuestion env).1 =
      { conversationId := getOrCreateConversation env,
        answer := NO_INFO_ANSWER, citedChunks := [], source := "error" } ∧
    assistantSaves (askQuestion env).2 = 1 ∧
    Effect.llmCall .combined ∉ (askQuestion env).2 ∧
    Effect.llmCall .webOnly ∉ (askQuestion env).2 := by
  rcases hjf with hji | hjc | hja <;> rcases hrf with hrf | hrf
  · refine ⟨?_, ?_, ?_, ?_⟩ <;>
      simp [askQuestion, assistantSaves, isAssistantSave, hq, hg1, hg2, hc, hji, hrf]
  · by_cases hr : isContextRelevant env.ragResults = true <;>
      refine ⟨?_, ?_, ?_, ?_⟩ <;>
      simp [askQuestion, assistantSaves, isAssistantSave, hq, hg1, hg2, hc, hji, hr, hrf]
  · by_cases hi : (analyzeQuery env.question env.classifierReply).intent = .job_search <;>
      refine ⟨?_, ?_, ?_, ?_⟩ <;>
      simp [askQuestion, assistantSaves, isAssistantSave, hq, hg1, hg2, hc, hi, hjc, hrf]
  · by_cases hi : (analyzeQuery env.question env.classifierReply).intent = .job_search <;>
      by_cases hr : isContextRelevant env.ragResults = true <;>
      refine ⟨?_, ?_, ?_, ?_⟩ <;>
      simp [askQuestion, assistantSaves, isAssistantSave, hq, hg1, hg2, hc, hi, hjc, hr, hrf]
  · by_cases hi : (analyzeQuery env.question env.classifierReply).intent = .job_search <;>
      by_cases hjc : 0 < env.jobChunks.length <;>
      refine ⟨?_, ?_, ?_, ?_⟩ <;>
      simp [askQuestion, assistantSaves, isAssistantSave, hq, hg1, hg2, hc, hi, hjc, hja, hrf]
  · by_cases hi : (analyzeQuery env.question env.classifierReply).intent = .job_search <;>
      by_cases hjc : 0 < env.jobChunks.length <;>
      by_cases hr : isContextRelevant env.ragResults = true <;>
      refine ⟨?_, ?_, ?_, ?_⟩ <;>
      simp [askQuestion, assistantSaves, isAssistantSave, hq, hg1, hg2, hc, hi, hjc, hja, hr, hrf]

/-- After a failed job step the run ends in the resume-only or the
exhaustion terminal: one assistant turn, no combined or web-only synthesis,
and a source tag that is neither "combined" nor "web". -/
theorem post_job_spec (env : Env)
    (hq : isBlank env.question = false)
    (hg1 : ¬ (analyzeQuery env.question env.classifierReply).intent = .irrelevant)
    (hg2 : (analyzeQuery env.question env.classifierReply).confidence.lt (mkRat 6 10) = false)
    (hc : env.cacheLookup = none)
    (hjf : ¬ (analyzeQuery env.question env.classifierReply).intent = .job_search ∨
           env.jobChunks.length = 0 ∨
           ¬ (extractAnswer env.jobSynthReply ≠ "" ∧ 10 < (extractAnswer env.jobSynthReply).length)) :
    assistantSaves (askQuestion env).2 = 1 ∧
    Effect.llmCall .combined ∉ (askQuestion env).2 ∧
    Effect.llmCall .webOnly ∉ (askQuestion env).2 ∧
    ((askQuestion env).1.source = "combined" ∨ (askQuestion env).1.source = "web" →
      ∃ c, env.cacheLookup = some c ∧ c.source = (askQuestion env).1.source) := by
  by_cases hr : isContextRelevant env.ragResults = true
  · by_cases hra : extractAnswer env.ragSynthReply ≠ "" ∧
        10 < (extractAnswer env.ragSynthReply).length ∧
        includesStr (extractAnswer env.ragSynthReply) REFUSAL_NEEDLE = false
    · obtain ⟨h1, h2, h3, h4⟩ := rag_accept_spec env hq hg1 hg2 hc hjf hr hra
      exact ⟨h2, h3, h4, by rw [h1]; intro h; simp at h⟩
    · obtain ⟨h1, h2, h3, h4⟩ := exhaustion_spec env hq hg1 hg2 hc hjf (Or.inr hra)
      exact ⟨h2, h3, h4, by rw [h1]; intro h; simp at h⟩
  · obtain ⟨h1, h2, h3, h4⟩ :=
      exhaustion_spec env hq hg1 hg2 hc hjf (Or.inl (by simpa using hr))
    exact ⟨h2, h3, h4, by rw [h1]; intro h; simp at h⟩

/-- Every non-blank question terminates having persisted exactly one
assistant turn, never having invoked the combined or web-only synthesis,
and with a "combined"/"web" source tag only when echoed from a cache hit. -/
theorem terminal_spec (env : Env) (hq : isBlank env.question = false) :
    assistantSaves (askQuestion env).2 = 1 ∧
    Effect.llmCall .combined ∉ (askQuestion env).2 ∧
    Effect.llmCall .webOnly ∉ (askQuestion env).2 ∧
    ((askQuestion env).1.source = "combined" ∨ (askQuestion env).1.source = "web" →
      ∃ c, env.cacheLookup = some c ∧ c.source = (askQuestion env).1.source) := by
  by_cases hg : (analyzeQuery env.question env.classifierReply).intent = .irrelevant ∨
      (analyzeQuery env.question env.classifierReply).confidence.lt (mkRat 6 10) = true
  · rw [guardrail_path env hq hg]
    exact ⟨by simp [assistantSaves, isAssistantSave], by simp, by simp,
      by intro h; simp at h⟩
  · obtain ⟨hg1, hg2⟩ := not_or.mp hg
    rw [Bool.not_eq_true] at hg2
    rcases hcc : env.cacheLookup with _ | c
    · by_cases hi : (analyzeQuery env.question env.classifierReply).intent = .job_search
      · by_cases hj : 0 < env.jobChunks.length
        · by_cases ha : extractAnswer env.jobSynthReply ≠ "" ∧
              10 < (extractAnswer env.jobSynthReply).length
          · obtain ⟨h1, h2, h3, h4⟩ := job_accept_spec env hq hg1 hg2 hcc hi hj ha
            exact ⟨h2, h3, h4, by rw [h1]; intro h; simp at h⟩
          · have h := post_job_spec env hq hg1 hg2 hcc (Or.inr (Or.inr ha))
            rwa [hcc] at h
        · have h := post_job_spec env hq hg1 hg2 hcc
            (Or.inr (Or.inl (Nat.eq_zero_of_not_pos hj)))
          rwa [hcc] at h
      · have h := post_job_spec env hq hg1 hg2 hcc (Or.inl hi)
        rwa [hcc] at h
    · rw [cachehit_path env c hq hg1 hg2 hcc]
      exact ⟨by simp [assistantSaves, isAssistantSave], by simp, by simp,
        fun _ => ⟨c, rfl, rfl⟩⟩

/-! ### The token-budget window: auxiliary recursion and lemmas -/

/-- The loop of the source equals the accumulator-free reformulation. -/
theorem filterHistoryGo_eq (maxTokens : Nat) :
    ∀ (l : List BaseMessage) (acc : Nat) (res : List BaseMessage),
      filterHistoryGo maxTokens acc l res = (takeBudget maxTokens acc l).reverse ++ res := by
  intro l
  induction l with
  | nil => intro acc res; simp [filterHistoryGo, takeBudget]
  | cons m rest ih =>
    intro acc res
    simp only [filterHistoryGo, takeBudget]
    by_cases h : maxTokens < acc + estimateTokenCount m.content
    · simp [h]
    · simp [h, ih]

/-- The kept walk never exceeds the budget. -/
theorem takeBudget_total_le (maxTokens : Nat) :
    ∀ (l : List BaseMessage) (acc : Nat), acc ≤ maxTokens →
      acc + totalTokensOf (takeBudget maxTokens acc l) ≤ maxTokens := by
  intro l
  induction l with
  | nil => intro acc h; simpa [takeBudget, totalTokensOf] using h
  | cons m rest ih =>
    intro acc h
    simp only [takeBudget]
    by_cases hx : maxTokens < acc + estimateTokenCount m.content
    · simpa [hx, totalTokensOf] using h
    · push_neg at hx
      have hrec := ih (acc + estimateTokenCount m.content) hx
      rw [if_neg (not_lt.mpr hx)]
      simp only [totalTokensOf, List.map_cons, List.sum_cons]
      simp only [totalTokensOf] at hrec
      omega

/-- Either the walk keeps the whole list, or the first message it drops
would push the accumulated cost over the budget. -/
theorem takeBudget_break (maxTokens : Nat) :
    ∀ (l : List BaseMessage) (acc : Nat),
      takeBudget maxTokens acc l = l ∨
      ∃ m t, l = takeBudget maxTokens acc l ++ m :: t ∧
        maxTokens < acc + totalTokensOf (takeBudget maxTokens acc l) +
          estimateTokenCount m.content := by
  intro l
  induction l with
  | nil => intro acc; left; rfl
  | cons m rest ih =>
    intro acc
    by_cases hx : maxTokens < acc + estimateTokenCount m.content
    · right
      refine ⟨m, rest, ?_, ?_⟩ <;> simp [takeBudget, hx, totalTokensOf]
    · rcases ih (acc + estimateTokenCount m.content) with h | ⟨m', t', heq, hlt⟩
      · left; simp [takeBudget, hx, h]
      · right
        refine ⟨m', t', ?_, ?_⟩
        · simp only [takeBudget, if_neg hx, List.cons_append, List.cons.injEq, true_and]
          exact heq
        · simp only [takeBudget, if_neg hx, totalTokensOf, List.map_cons, List.sum_cons] at hlt ⊢
          omega

/-- Dropping a suffix of a list can only lower its total cost. -/
theorem totalTokensOf_drop_le (l : List BaseMessage) (n : Nat) :
    totalTokensOf (l.drop n) ≤ totalTokensOf l := by
  conv_rhs => rw [← List.take_append_drop n l]
  simp only [totalTokensOf, List.map_append, List.sum_append]
  omega

/-- Monotonicity: dropping more messages can only lower the total cost. -/
theorem totalTokensOf_drop_mono (l : List BaseMessage) {j d : Nat} (h : j ≤ d) :
    totalTokensOf (l.drop d) ≤ totalTokensOf (l.drop j) := by
  have hdd : l.drop d = (l.drop j).drop (d - j) := by
    rw [List.drop_drop]
    congr 1
    omega
  rw [hdd]
  exact totalTokensOf_drop_le (l.drop j) (d - j)

/-- Reversal preserves the total cost. -/
theorem totalTokensOf_reverse (l : List BaseMessage) :
    totalTokensOf l.reverse = totalTokensOf l := by
  induction l with
  | nil => rfl
  | cons m rest ih =>
    simp only [List.reverse_cons, totalTokensOf, List.map_append, List.sum_append,
      List.map_cons, List.sum_cons, List.map_nil, List.sum_nil]
    simp only [totalTokensOf] at ih
    omega

/-! ### The claims -/

/-- **C1, counterexample.** The claim says a semantic-cache hit never
invokes the completion provider.  But classification (`analyzeQuery`, one
completion round trip) runs before the cache lookup: at this concrete
cache-hit input the returned bundle is the cached one, yet the trace
contains the classifier's completion-provider call. -/
theorem C1_counterexample :
    envHitRag.cacheLookup = some cachedRag ∧
    (askQuestion envHitRag).1.answer = cachedRag.answer ∧
    (askQuestion envHitRag).1.source = cachedRag.source ∧
    Effect.llmCall .classify ∈ (askQuestion envHitRag).2 := by
  refine ⟨rfl, ?_, ?_, ?_⟩ <;> decide

/-- **C1, amended.** On every cache hit the engine returns the stored
answer bundle and appends exactly one fresh assistant turn to the current
conversation, without invoking any synthesis completion call; the single
classification completion call has already happened before the lookup. -/
theorem C1_cache_hit_replay (env : Env) (c : CachedAnswer)
    (hq : isBlank env.question = false)
    (hg1 : ¬ (analyzeQuery env.question env.classifierReply).intent = .irrelevant)
    (hg2 : (analyzeQuery env.question env.classifierReply).confidence.lt (mkRat 6 10) = false)
    (hc : env.cacheLookup = some c) :
    (askQuestion env).1.answer = c.answer ∧
    (askQuestion env).1.citedChunks = c.citedChunks ∧
    (askQuestion env).1.source = c.source ∧
    (∀ k, Effect.llmCall k ∈ (askQuestion env).2 → k = .classify) ∧
    Effect.llmCall .classify ∈ (askQuestion env).2 ∧
    Effect.savedMessage (getOrCreateConversation env) "assistant" c.answer c.source
      c.citedChunks ∈ (askQuestion env).2 ∧
    assistantSaves (askQuestion env).2 = 1 := by
  rw [cachehit_path env c hq hg1 hg2 hc]
  refine ⟨rfl, rfl, rfl, ?_, by simp, by simp, by simp [assistantSaves, isAssistantSave]⟩
  intro k hk
  simpa using hk

/-- **C1, witness** at a concrete cache-hit input. -/
theorem C1_witness :
    (askQuestion envHitRag).1.answer = cachedRag.answer :=
  (C1_cache_hit_replay envHitRag cachedRag (by decide) (by decide) (by decide) rfl).1

/-- **C2.** Whenever the classified intent is irrelevant or the confidence
is below 0.6, `askQuestion` short-circuits: it returns the fixed refusal
with source "error", persists it as an assistant turn tagged "error", and
its trace holds no retrieval call, no synthesis call and no cache-store
call. -/
theorem C2_guardrail_short_circuit (env : Env)
    (hq : isBlank env.question = false)
    (hg : (analyzeQuery env.question env.classifierReply).intent = .irrelevant ∨
          (analyzeQuery env.question env.classifierReply).confidence.lt (mkRat 6 10) = true) :
    (askQuestion env).1 =
      { conversationId := getOrCreateConversation env, answer := GUARDRAIL_MESSAGE,
        citedChunks := [], source := "error" } ∧
    Effect.savedMessage (getOrCreateConversation env) "assistant" GUARDRAIL_MESSAGE
      "error" [] ∈ (askQuestion env).2 ∧
    (∀ e ∈ (askQuestion env).2, isRetrieval e = false) ∧
    (∀ e ∈ (askQuestion env).2, isSynthesisCall e = false) ∧
    (∀ e ∈ (askQuestion env).2, isCacheStore e = false) := by
  rw [guardrail_path env hq hg]
  refine ⟨rfl, by simp, ?_, ?_, ?_⟩ <;>
    simp [isRetrieval, isSynthesisCall, isCacheStore]

/-- **C2, witness**: a gibberish question classified with confidence 0.1. -/
theorem C2_witness :
    (askQuestion envGuardrail).1 =
      { conversationId := getOrCreateConversation envGuardrail,
        answer := GUARDRAIL_MESSAGE, citedChunks := [], source := "error" } :=
  (C2_guardrail_short_circuit envGuardrail (by decide) (by decide)).1

/-- **C3, counterexample.** The claim says every cascade step rejects an
answer that echoes a refusal phrase such as "don't have enough".  The job
step checks only the length: at this input the synthesized answer contains
"don't have enough" verbatim and is still accepted with source "job". -/
theorem C3_counterexample :
    (askQuestion envJobRefusal).1.source = "job" ∧
    (askQuestion envJobRefusal).1.answer = "I don't have enough information to answer." ∧
    includesStr (askQuestion envJobRefusal).1.answer REFUSAL_NEEDLE = true ∧
    10 < (askQuestion envJobRefusal).1.answer.length := by
  refine ⟨?_, ?_, ?_, ?_⟩ <;> decide

/-- **C3, amended.** Each reachable cascade step accepts on
`answer.length > 10`; only the resume-only step additionally rejects an
answer containing "don't have enough", and no step checks "no matching
jobs".  Part one: the job step accepts any answer longer than 10
characters, whatever it says.  Part two: the resume-only step rejects an
answer echoing "don't have enough", and the run then falls through to the
insufficient-information error terminal (web retrieval being disabled). -/
theorem C3_acceptance_checks (env₁ env₂ : Env) :
    (isBlank env₁.question = false →
     ¬ (analyzeQuery env₁.question env₁.classifierReply).intent = .irrelevant →
     (analyzeQuery env₁.question env₁.classifierReply).confidence.lt (mkRat 6 10) = false →
     env₁.cacheLookup = none →
     (analyzeQuery env₁.question env₁.classifierReply).intent = .job_search →
     0 < env₁.jobChunks.length →
     extractAnswer env₁.jobSynthReply ≠ "" →
     10 < (extractAnswer env₁.jobSynthReply).length →
     (askQuestion env₁).1.source = "job" ∧
       (askQuestion env₁).1.answer = extractAnswer env₁.jobSynthReply) ∧
    (isBlank env₂.question = false →
     ¬ (analyzeQuery env₂.question env₂.classifierReply).intent = .irrelevant →
     (analyzeQuery env₂.question env₂.classifierReply).confidence.lt (mkRat 6 10) = false →
     env₂.cacheLookup = none →
     ¬ (analyzeQuery env₂.question env₂.classifierReply).intent = .job_search →
     isContextRelevant env₂.ragResults = true →
     includesStr (extractAnswer env₂.ragSynthReply) REFUSAL_NEEDLE = true →
     (askQuestion env₂).1.source = "error" ∧
       (askQuestion env₂).1.answer = NO_INFO_ANSWER) := by
  constructor
  · intro hq hg1 hg2 hc hi hj ha1 ha2
    have h := job_accept_spec env₁ hq hg1 hg2 hc hi hj ⟨ha1, ha2⟩
    rw [h.1]
    exact ⟨rfl, rfl⟩
  · intro hq hg1 hg2 hc hi hr hecho
    have h := exhaustion_spec env₂ hq hg1 hg2 hc (Or.inl hi)
      (Or.inr (by intro hcon; rcases hcon with ⟨_, _, hfalse⟩; simp [hecho] at hfalse))
    rw [h.1]
    exact ⟨rfl, rfl⟩

/-- **C4.** The relevance gate holds iff at least two chunks score at or
above the configured minimum; in particular the empty list is never
relevant, and nothing else about the below-minimum chunks matters. -/
theorem C4_relevance_gate (chunks : List CitedChunk) :
    (isContextRelevant chunks = true ↔
      2 ≤ (chunks.filter (fun c => MIN_SCORE ≤ c.score)).length) ∧
    isContextRelevant [] = false := by
  constructor
  · cases chunks with
    | nil => simp [isContextRelevant]
    | cons c cs => simp [isContextRelevant]
  · rfl

/-- **C5.** The token-budget window keeps a suffix of the chronological
input (the newest messages, still in order), its total estimated cost —
`ceil(length/4)` per message — never exceeds the budget, and every longer
suffix would: oldest messages are dropped first, the walk stopping at the
first message that would exceed the budget. -/
theorem C5_token_budget_window (messages : List BaseMessage) (maxTokens : Nat) :
    ∃ k, filterHistoryByTokens messages maxTokens = messages.drop k ∧
      totalTokensOf (filterHistoryByTokens messages maxTokens) ≤ maxTokens ∧
      ∀ j, j < k → maxTokens < totalTokensOf (messages.drop j) := by
  have hdef : filterHistoryByTokens messages maxTokens =
      (takeBudget maxTokens 0 messages.reverse).reverse := by
    simpa [filterHistoryByTokens] using
      filterHistoryGo_eq maxTokens messages.reverse 0 []
  have hbud : totalTokensOf (filterHistoryByTokens messages maxTokens) ≤ maxTokens := by
    rw [hdef, totalTokensOf_reverse]
    simpa using takeBudget_total_le maxTokens messages.reverse 0 (Nat.zero_le _)
  rcases takeBudget_break maxTokens messages.reverse 0 with h | ⟨m, t, heq, hlt⟩
  · refine ⟨0, ?_, hbud, ?_⟩
    · rw [hdef, h, List.reverse_reverse, List.drop_zero]
    · intro j hj; omega
  · generalize htb : takeBudget maxTokens 0 messages.reverse = tb at heq hlt hdef
    have hmsg : messages = (t.reverse ++ [m]) ++ tb.reverse := by
      conv_lhs => rw [← List.reverse_reverse messages, heq]
      rw [List.reverse_append, List.reverse_cons]
    have hlen : (t.reverse ++ [m]).length = t.length + 1 := by simp
    refine ⟨t.length + 1, ?_, hbud, ?_⟩
    · rw [hdef]
      conv_rhs => rw [hmsg, ← hlen]
      rw [List.drop_left]
    · intro j hj
      have hj' : j ≤ t.length := Nat.lt_succ_iff.mp hj
      have h1 : totalTokensOf (messages.drop t.length) =
          estimateTokenCount m.content + totalTokensOf tb := by
        conv_lhs => rw [hmsg, List.append_assoc, ← List.length_reverse t]
        rw [List.drop_left]
        have hsingle : ([m] ++ tb.reverse : List BaseMessage) = m :: tb.reverse := rfl
        rw [hsingle]
        simp only [totalTokensOf, List.map_cons, List.sum_cons]
        have hrev := totalTokensOf_reverse tb
        simp only [totalTokensOf] at hrev
        omega
      have h2 : maxTokens < totalTokensOf (messages.drop t.length) := by
        rw [h1]; omega
      exact lt_of_lt_of_le h2 (totalTokensOf_drop_mono messages hj')

/-- **C6.** `analyzeQuery` never raises to its caller: it is total, and on
any network or parse failure (the `none` reply) it returns the safe default
`{intent: irrelevant, confidence: 0, rewrittenQuery: the original
question}`. -/
theorem C6_classifier_failure_safe_default (question : String) :
    analyzeQuery question none =
      { intent := .irrelevant, confidence := JSNumber.num 0, rewrittenQuery := question,
        jobSearch := none } := rfl

/-- **C7, counterexample.** The claim says the confidence returned by
`analyzeQuery` always lies in [0,1].  The cast after `JSON.parse` performs
no runtime validation, so a reply with a valid intent but no numeric
confidence reaches the range check as NaN; `confidence < 0 ||
confidence > 1` is then false, the NaN is returned unclamped — no rational
value in [0,1] at all — and it would even pass the guardrail, `NaN < 0.6`
being false as well. -/
theorem C7_counterexample :
    (analyzeQuery "what is my role" (some rawMissingConf)).confidence = JSNumber.nan ∧
    JSNumber.lt
      (analyzeQuery "what is my role" (some rawMissingConf)).confidence (mkRat 6 10) = false ∧
    ¬ ∃ q : ℚ, (analyzeQuery "what is my role" (some rawMissingConf)).confidence =
        JSNumber.num q ∧ 0 ≤ q ∧ q ≤ 1 := by
  refine ⟨rfl, rfl, ?_⟩
  rintro ⟨q, hq, -⟩
  rw [show (analyzeQuery "what is my role" (some rawMissingConf)).confidence =
      JSNumber.nan from rfl] at hq
  exact JSNumber.noConfusion hq

/-- **C7, amended.** The clamp acts only on confidences the JavaScript
range check can see: every numeric confidence returned by `analyzeQuery`
lies in [0,1], and a numeric confidence outside [0,1] is replaced by 0.8
(by 0 when the resulting intent is irrelevant); but a missing or
non-numeric (NaN) confidence on a reply with a valid intent passes the
check unchanged and is returned outside [0,1]. -/
theorem C7_numeric_confidence_clamped (question : String) (reply : Option RawAnalysis) :
    (∀ q : ℚ, (analyzeQuery question reply).confidence = JSNumber.num q →
      0 ≤ q ∧ q ≤ 1) ∧
    (∀ raw : RawAnalysis, reply = some raw →
      JSNumber.lt raw.confidence 0 = true ∨ JSNumber.gt raw.confidence 1 = true →
      (analyzeQuery question reply).confidence =
        (if (analyzeQuery question reply).intent = .irrelevant then JSNumber.num 0
         else JSNumber.num (mkRat 8 10))) ∧
    (∀ raw : RawAnalysis, ∀ i : Intent, reply = some raw →
      parseIntent raw.intent = some i → raw.confidence = JSNumber.nan →
      (analyzeQuery question reply).confidence = JSNumber.nan) := by
  have hval : (0 : ℚ) ≤ mkRat 8 10 ∧ (mkRat 8 10 : ℚ) ≤ 1 := by
    rw [Rat.mkRat_eq_div]
    norm_num
  rcases reply with _ | raw
  · refine ⟨?_, ?_, ?_⟩
    · intro q hq
      rw [show (analyzeQuery question none).confidence = JSNumber.num 0 from rfl] at hq
      injection hq with h
      subst h
      norm_num
    · intro raw hr _
      cases hr
    · intro raw i hr _ _
      cases hr
  · rcases hpi : parseIntent raw.intent with _ | i
    · -- invalid intent: confidence forced to the number 0
      have hb : ((JSNumber.num 0).lt 0 || (JSNumber.num 0).gt 1) = false := by
        norm_num [JSNumber.lt, JSNumber.gt]
      have hconf : (analyzeQuery question (some raw)).confidence = JSNumber.num 0 := by
        simp [analyzeQuery, hpi, hb]
      have hint : (analyzeQuery question (some raw)).intent = .irrelevant := by
        simp [analyzeQuery, hpi]
      refine ⟨?_, ?_, ?_⟩
      · intro q hq
        rw [hconf] at hq
        injection hq with h
        subst h
        norm_num
      · intro raw' hr hout
        obtain rfl : raw' = raw := by injection hr with h; exact h.symm
        rw [hconf, hint]
        simp
      · intro raw' i' hr hpi' _
        obtain rfl : raw' = raw := by injection hr with h; exact h.symm
        rw [hpi] at hpi'
        cases hpi'
    · have hint : (analyzeQuery question (some raw)).intent = i := by
        simp [analyzeQuery, hpi]
      rcases hcc : raw.confidence with q0 | _
      · -- numeric confidence
        by_cases h0 : q0 < 0 ∨ 1 < q0
        · have hb : ((JSNumber.num q0).lt 0 || (JSNumber.num q0).gt 1) = true := by
            rcases h0 with h | h <;> simp [JSNumber.lt, JSNumber.gt, h]
          have hconf : (analyzeQuery question (some raw)).confidence =
              (if i = .irrelevant then JSNumber.num 0 else JSNumber.num (mkRat 8 10)) := by
            simp [analyzeQuery, hpi, hcc, hb]
          refine ⟨?_, ?_, ?_⟩
          · intro q hq
            rw [hconf] at hq
            by_cases hii : i = .irrelevant
            · rw [if_pos hii] at hq
              injection hq with h
              subst h
              norm_num
            · rw [if_neg hii] at hq
              injection hq with h
              subst h
              exact hval
          · intro raw' hr hout
            obtain rfl : raw' = raw := by injection hr with h; exact h.symm
            rw [hconf, hint]
          · intro raw' i' hr _ hnan
            obtain rfl : raw' = raw := by injection hr with h; exact h.symm
            rw [hcc] at hnan
            cases hnan
        · have h0' := not_or.mp h0
          have hb : ((JSNumber.num q0).lt 0 || (JSNumber.num q0).gt 1) = false := by
            simp [JSNumber.lt, JSNumber.gt, h0'.1, h0'.2]
          have hconf : (analyzeQuery question (some raw)).confidence = JSNumber.num q0 := by
            simp [analyzeQuery, hpi, hcc, hb]
          refine ⟨?_, ?_, ?_⟩
          · intro q hq
            rw [hconf] at hq
            injection hq with h
            subst h
            exact ⟨not_lt.mp h0'.1, not_lt.mp h0'.2⟩
          · intro raw' hr hout
            obtain rfl : raw' = raw := by injection hr with h; exact h.symm
            rw [hcc] at hout
            rcases hout with h | h <;> simp [JSNumber.lt, JSNumber.gt] at h
            · exact absurd (Or.inl h) h0
            · exact absurd (Or.inr h) h0
          · intro raw' i' hr _ hnan
            obtain rfl : raw' = raw := by injection hr with h; exact h.symm
            rw [hcc] at hnan
            cases hnan
      · -- NaN confidence: passes the check unchanged
        have hconf : (analyzeQuery question (some raw)).confidence = JSNumber.nan := by
          simp [analyzeQuery, hpi, hcc, JSNumber.lt, JSNumber.gt]
        refine ⟨?_, ?_, ?_⟩
        · intro q hq
          rw [hconf] at hq
          exact JSNumber.noConfusion hq
        · intro raw' hr hout
          obtain rfl : raw' = raw := by injection hr with h; exact h.symm
          rw [hcc] at hout
          rcases hout with h | h <;> simp [JSNumber.lt, JSNumber.gt] at h
        · intro raw' i' hr _ _
          obtain rfl : raw' = raw := by injection hr with h; exact h.symm
          exact hconf

/-- **C8, counterexample.** The claim says every terminal state (input
validation included) persists exactly one assistant turn.  The
empty-question validation terminal returns an error bundle having persisted
nothing at all. -/
theorem C8_counterexample :
    (askQuestion envEmpty).1 =
      { conversationId := "", answer := EMPTY_QUESTION_ANSWER,
        citedChunks := [], source := "error" } ∧
    assistantSaves (askQuestion envEmpty).2 = 0 := by
  exact ⟨rfl, rfl⟩

/-- **C8, amended.** Every terminal state reached past input validation —
guardrail refusal, cache hit, accepted synthesis or cascade exhaustion —
persists exactly one new assistant turn (and returns a structured bundle);
the validation rejection returns its bundle having persisted no turn. -/
theorem C8_one_assistant_turn (env : Env) (hq : isBlank env.question = false) :
    assistantSaves (askQuestion env).2 = 1 :=
  (terminal_spec env hq).1

/-- **C8, witness** at a concrete guardrail input. -/
theorem C8_witness : assistantSaves (askQuestion envGuardrail).2 = 1 :=
  C8_one_assistant_turn envGuardrail (by decide)

/-- **C9, counterexample.** The claim says the returned bundle's source is
never "web".  A cache hit replays whatever source tag was cached: at this
concrete input the cached entry is tagged "web" and so is the returned
bundle. -/
theorem C9_counterexample :
    envHitWeb.cacheLookup = some cachedWeb ∧
    (askQuestion envHitWeb).1.source = "web" := by
  refine ⟨rfl, ?_⟩
  decide

/-- **C9, amended.** Web retrieval is never attempted — the web chunk list
is the constant empty list — so the combined-synthesis and web-only
cascade steps are unreachable (their completion calls never occur), and a
bundle whose source is "combined" or "web" can only be the echo of a
cache hit that carried that tag. -/
theorem C9_combined_web_unreachable (env : Env) :
    Effect.llmCall .combined ∉ (askQuestion env).2 ∧
    Effect.llmCall .webOnly ∉ (askQuestion env).2 ∧
    ((askQuestion env).1.source = "combined" ∨ (askQuestion env).1.source = "web" →
      ∃ c, env.cacheLookup = some c ∧ c.source = (askQuestion env).1.source) := by
  rcases hq : isBlank env.question with _ | _
  · obtain ⟨_, h2, h3, h4⟩ := terminal_spec env hq
    exact ⟨h2, h3, h4⟩
  · rw [validation_path env hq]
    exact ⟨by simp, by simp, by intro h; simp at h⟩

/-- **C10.** On a cache hit the returned bundle's conversation id is the
cached response's own conversation id whenever the cached response carries
a (non-empty) one — which can differ from the conversation the fresh
assistant turn was appended to — and the current conversation id exactly
when the cached payload has no conversation id. -/
theorem C10_cache_hit_conversation_id (env : Env) (c : CachedAnswer)
    (hq : isBlank env.question = false)
    (hg1 : ¬ (analyzeQuery env.question env.classifierReply).intent = .irrelevant)
    (hg2 : (analyzeQuery env.question env.classifierReply).confidence.lt (mkRat 6 10) = false)
    (hc : env.cacheLookup = some c) :
    (¬ c.conversationId = "" →
      (askQuestion env).1.conversationId = c.conversationId) ∧
    (c.conversationId = "" →
      (askQuestion env).1.conversationId = getOrCreateConversation env) ∧
    Effect.savedMessage (getOrCreateConversation env) "assistant" c.answer c.source
      c.citedChunks ∈ (askQuestion env).2 := by
  rw [cachehit_path env c hq hg1 hg2 hc]
  refine ⟨?_, ?_, by simp⟩
  · intro h
    simp [h]
  · intro h
    simp [h]

/-- **C10, witness**: the cached entry carries conversation id "convA"
while the fresh assistant turn goes to the current conversation. -/
theorem C10_witness :
    (askQuestion envHitRag).1.conversationId = cachedRag.conversationId :=
  (C10_cache_hit_conversation_id envHitRag cachedRag (by decide) (by decide)
    (by decide) rfl).1 (by decide)

end CareerMatch
